import Mathlib

/-!
# Verification of the `dlipower` PowerSwitch client

Shallow embedding of `src/dlipower/dlipower.py` (class `PowerSwitch`) and
proofs about its behaviour.  Pure computations (the MD5 login digest, the
status-table row parser, outlet resolution) are translated directly; the
network is modelled as a deterministic oracle of request outcomes, and the
stateful methods are translated in an explicit state-passing style with
counters for the HTTP traffic they generate.  Python exceptions are modelled
with `Except`.
-/

deriving instance DecidableEq for Except

namespace DLI

/-! ## MD5 (as used by `PowerSwitch.login` via `hashlib.md5`)

A byte-level implementation of MD5 over `Nat`, with 32-bit words kept
below `2^32` by explicit reduction mod `2^32`. -/

/-- Reduce to a 32-bit word. -/
def w32 (n : Nat) : Nat := n % 4294967296

/-- Addition of 32-bit words. -/
def wadd (a b : Nat) : Nat := w32 (a + b)

/-- Left rotation of a 32-bit word (argument assumed `< 2^32`). -/
def rotl (x s : Nat) : Nat := w32 ((x <<< s) ||| (x >>> (32 - s)))

/-- Complement of a 32-bit word (argument assumed `< 2^32`). -/
def wnot (x : Nat) : Nat := x ^^^ 4294967295

/-- The 64 MD5 sine-derived constants `K[i] = floor(2^32 * |sin(i+1)|)`. -/
def md5K : List Nat :=
  [0xd76aa478, 0xe8c7b756, 0x242070db, 0xc1bdceee, 0xf57c0faf, 0x4787c62a, 0xa8304613, 0xfd469501,
   0x698098d8, 0x8b44f7af, 0xffff5bb1, 0x895cd7be, 0x6b901122, 0xfd987193, 0xa679438e, 0x49b40821,
   0xf61e2562, 0xc040b340, 0x265e5a51, 0xe9b6c7aa, 0xd62f105d, 0x02441453, 0xd8a1e681, 0xe7d3fbc8,
   0x21e1cde6, 0xc33707d6, 0xf4d50d87, 0x455a14ed, 0xa9e3e905, 0xfcefa3f8, 0x676f02d9, 0x8d2a4c8a,
   0xfffa3942, 0x8771f681, 0x6d9d6122, 0xfde5380c, 0xa4beea44, 0x4bdecfa9, 0xf6bb4b60, 0xbebfbc70,
   0x289b7ec6, 0xeaa127fa, 0xd4ef3085, 0x04881d05, 0xd9d4d039, 0xe6db99e5, 0x1fa27cf8, 0xc4ac5665,
   0xf4292244, 0x432aff97, 0xab9423a7, 0xfc93a039, 0x655b59c3, 0x8f0ccc92, 0xffeff47d, 0x85845dd1,
   0x6fa87e4f, 0xfe2ce6e0, 0xa3014314, 0x4e0811a1, 0xf7537e82, 0xbd3af235, 0x2ad7d2bb, 0xeb86d391]

/-- The per-step left-rotation amounts. -/
def md5S (i : Nat) : Nat :=
  let j := i % 4
  if i < 16 then [7, 12, 17, 22].getD j 0
  else if i < 32 then [5, 9, 14, 20].getD j 0
  else if i < 48 then [4, 11, 16, 23].getD j 0
  else [6, 10, 15, 21].getD j 0

/-- One MD5 step.  `M g` is the `g`-th little-endian word of the current chunk. -/
def md5Step (M : Nat → Nat) (i : Nat) : Nat × Nat × Nat × Nat → Nat × Nat × Nat × Nat
  | (A, B, C, D) =>
    let F :=
      if i < 16 then (B &&& C) ||| (wnot B &&& D)
      else if i < 32 then (D &&& B) ||| (wnot D &&& C)
      else if i < 48 then B ^^^ C ^^^ D
      else C ^^^ (B ||| wnot D)
    let g :=
      if i < 16 then i
      else if i < 32 then (5 * i + 1) % 16
      else if i < 48 then (3 * i + 5) % 16
      else (7 * i) % 16
    let F := wadd (wadd F A) (wadd (md5K.getD i 0) (M g))
    (D, wadd B (rotl F (md5S i)), B, C)

/-- Run `fuel` MD5 steps starting at step index `i`. -/
def md5Loop (M : Nat → Nat) : Nat → Nat → Nat × Nat × Nat × Nat → Nat × Nat × Nat × Nat
  | _, 0, st => st
  | i, fuel + 1, st => md5Loop M (i + 1) fuel (md5Step M i st)

/-- Encode `n` as `k` bytes, little-endian. -/
def toLE : Nat → Nat → List Nat
  | 0, _ => []
  | k + 1, n => n % 256 :: toLE k (n / 256)

/-- The `g`-th little-endian 32-bit word of a 64-byte chunk. -/
def leWord (chunk : List Nat) (g : Nat) : Nat :=
  chunk.getD (4 * g) 0 + 256 * chunk.getD (4 * g + 1) 0 +
    65536 * chunk.getD (4 * g + 2) 0 + 16777216 * chunk.getD (4 * g + 3) 0

/-- Process `n` 64-byte chunks. -/
def md5Chunks : Nat → List Nat → Nat × Nat × Nat × Nat → Nat × Nat × Nat × Nat
  | 0, _, st => st
  | n + 1, bytes, (a0, b0, c0, d0) =>
    let (A, B, C, D) := md5Loop (leWord (bytes.take 64)) 0 64 (a0, b0, c0, d0)
    md5Chunks n (bytes.drop 64) (wadd a0 A, wadd b0 B, wadd c0 C, wadd d0 D)

/-- MD5 padding: append `0x80`, zero bytes up to 56 mod 64, then the
bit length as 8 bytes little-endian. -/
def md5Pad (msg : List Nat) : List Nat :=
  let len := msg.length
  let padZeros := (119 - len % 64) % 64
  msg ++ [0x80] ++ List.replicate padZeros 0 ++ toLE 8 (len * 8)

/-- MD5 digest of a byte sequence, as 16 bytes. -/
def md5Bytes (msg : List Nat) : List Nat :=
  let padded := md5Pad msg
  let (a, b, c, d) :=
    md5Chunks (padded.length / 64) padded (0x67452301, 0xefcdab89, 0x98badcfe, 0x10325476)
  toLE 4 a ++ toLE 4 b ++ toLE 4 c ++ toLE 4 d

/-- UTF-8 encoding of one character. -/
def utf8Char (c : Char) : List Nat :=
  let n := c.toNat
  if n < 0x80 then [n]
  else if n < 0x800 then [0xC0 ||| (n >>> 6), 0x80 ||| (n &&& 0x3F)]
  else if n < 0x10000 then
    [0xE0 ||| (n >>> 12), 0x80 ||| ((n >>> 6) &&& 0x3F), 0x80 ||| (n &&& 0x3F)]
  else
    [0xF0 ||| (n >>> 18), 0x80 ||| ((n >>> 12) &&& 0x3F),
     0x80 ||| ((n >>> 6) &&& 0x3F), 0x80 ||| (n &&& 0x3F)]

/-- UTF-8 encoding of a string (Python's `str.encode()`). -/
def utf8 (s : String) : List Nat := (s.data.map utf8Char).flatten

/-- Lower-case hex digit. -/
def hexDigit (n : Nat) : Char := if n < 10 then Char.ofNat (48 + n) else Char.ofNat (87 + n)

/-- A byte as two lower-case hex characters. -/
def byteHex (b : Nat) : String := String.mk [hexDigit (b / 16), hexDigit (b % 16)]

/-- MD5 hex digest of a string: `hashlib.md5(s.encode()).hexdigest()`. -/
def md5hex (s : String) : String := String.join ((md5Bytes (utf8 s)).map byteHex)

/-! ## The login digest (`PowerSwitch.login`, dlipower.py lines 385-392)

`login` sets `fields['Username'] = self.userid`, `fields['Password'] =
self.password`, and computes
`form_response = fields['Challenge'] + fields['Username'] + fields['Password'] + fields['Challenge']`,
then posts the MD5 hex digest of `form_response` as the password. -/

/-- The `form_response` string concatenated in `PowerSwitch.login`. -/
def form_response (challenge userid password : String) : String :=
  challenge ++ userid ++ password ++ challenge

/-- The digest `login` posts: `hashlib.md5(form_response.encode()).hexdigest()`. -/
def login_digest (challenge userid password : String) : String :=
  md5hex (form_response challenge userid password)

/-! ## The transport: `PowerSwitch.geturl` (dlipower.py lines 450-475)

The network is a deterministic oracle `attempt : Nat → ReqOutcome` giving the
outcome of the `i`-th HTTP request of the call: either a
`requests.exceptions.RequestException` (connection-level failure) or a
response with a status code and a body. -/

/-- Outcome of one HTTP request attempt. -/
inductive ReqOutcome
  | exn
  | resp (status : Nat) (content : String)
deriving DecidableEq

/-- Python exceptions raised by the embedded methods. -/
inductive PyError
  | attributeError
  | indexError
  | typeError
  | valueError
  | keyError (key : String)
  | dliPower (msg : String)
deriving DecidableEq

/-- Does the outcome carry a 200 response? -/
def status200 : ReqOutcome → Bool
  | .resp 200 _ => true
  | _ => false

/-- State of `geturl`'s local variables when its `for` loop exits. -/
structure GeturlOut where
  result : Option String
  request : Option (Nat × String)
  issued : Nat
deriving DecidableEq

/-- The `for i in range(0, self.retries)` loop of `geturl`: an exception is
caught and the loop continues; a response is stored in `request`; only a 200
response sets `result` and breaks. -/
def geturlLoop (attempt : Nat → ReqOutcome) : Nat → Nat → Option (Nat × String) → Nat → GeturlOut
  | _, 0, req, issued => ⟨none, req, issued⟩
  | i, fuel + 1, req, issued =>
    match attempt i with
    | .exn => geturlLoop attempt (i + 1) fuel req (issued + 1)
    | .resp s c =>
      if s = 200 then ⟨some c, some (s, c), issued + 1⟩
      else geturlLoop attempt (i + 1) fuel (some (s, c)) (issued + 1)

/-- Model of `PowerSwitch.geturl`.  After the loop the source evaluates
`request.status_code` for a debug log; when every attempt raised, `request`
is still `None` and that line raises `AttributeError`.  Returns the outcome
together with the number of HTTP requests issued. -/
def geturl (attempt : Nat → ReqOutcome) (retries : Nat) :
    Except PyError (Option String) × Nat :=
  let out := geturlLoop attempt 0 retries none 0
  match out.request with
  | none => (.error .attributeError, out.issued)
  | some _ => (.ok out.result, out.issued)

/-- A trace whose first response has status 404 and whose second has status
200: used to show non-200 responses are retried. -/
def traceNon200 : Nat → ReqOutcome
  | 0 => .resp 404 ("err")
  | _ => .resp 200 ("ok")

/-- A trace on which every request raises a connection-level exception. -/
def traceAllExn : Nat → ReqOutcome := fun _ => .exn

/-! ## The status parser: `PowerSwitch.status_list` (dlipower.py lines 561-597)

The HTML page is abstracted to the outcome of the two BeautifulSoup
table-location heuristics: the rows of the located table (admin view via a
`td` with string `'1'`, or the non-admin fallback via a `th` with string
`'#'`), or no table at all.  A cell carries its `.string` and, for the
state cell, the `.string` of its nested `font` element (either may be
`None`). -/

/-- A table cell as the parser sees it. -/
structure Cell where
  text : Option String
  fontText : Option String
deriving DecidableEq

/-- Outcome of the table-location heuristics on the fetched page. -/
inductive Page
  | adminTable (rows : List (List Cell))
  | userTable (rows : List (List Cell))
  | noTable
deriving DecidableEq

/-- One parsed status row `[int(plugnumber), hostname, state]`. -/
structure OutletEntry where
  number : Int
  name : Option String
  state : String
deriving DecidableEq

/-- Python whitespace, as stripped by `str.strip()`. -/
def isSpaceChar (c : Char) : Bool :=
  c = ' ' ∨ c = '\t' ∨ c = '\n' ∨ c = '\r' ∨ c = '\x0b' ∨ c = '\x0c'

/-- Python `str.strip()`: drop leading and trailing whitespace. -/
def pyStrip (s : String) : String :=
  String.mk (((s.data.dropWhile isSpaceChar).reverse.dropWhile isSpaceChar).reverse)

/-- Python `str.upper()` on one (ASCII) character. -/
def pyUpperChar (c : Char) : Char :=
  if 'a' ≤ c ∧ c ≤ 'z' then Char.ofNat (c.toNat - 32) else c

/-- Python `str.upper()` (the device pages are ASCII). -/
def pyUpper (s : String) : String := String.mk (s.data.map pyUpperChar)

/-- Python `int()` on a string: optional surrounding whitespace, optional
sign, then at least one digit; anything else raises `ValueError` (`none`). -/
def pyIntOfString (s : String) : Option Int :=
  let t := pyStrip s
  let (sign, digits) :=
    match t.data with
    | '-' :: rest => ((-1 : Int), rest)
    | '+' :: rest => ((1 : Int), rest)
    | l => ((1 : Int), l)
  if digits = [] ∨ ¬ digits.all Char.isDigit then none
  else some (sign * (Int.ofNat (digits.foldl (fun acc c => 10 * acc + (c.toNat - 48)) 0)))

/-- One iteration of the row loop: a row with exactly 5 cells yields an
entry (`int(columns[0].string)`, `columns[1].string`,
`columns[2].find('font').string.upper()`); any other row is skipped
(`none`).  `int(None)` is a `TypeError`, `int` of a non-numeric string a
`ValueError`, and a missing `font`/`.string` an `AttributeError`. -/
def parseRow (cells : List Cell) : Except PyError (Option OutletEntry) :=
  if cells.length = 5 then
    match (cells.getD 0 ⟨none, none⟩).text with
    | none => .error .typeError
    | some t =>
      match pyIntOfString t with
      | none => .error .valueError
      | some n =>
        match (cells.getD 2 ⟨none, none⟩).fontText with
        | none => .error .attributeError
        | some st => .ok (some ⟨n, (cells.getD 1 ⟨none, none⟩).text, pyUpper st⟩)
  else .ok none

/-- The `for temp in root.findAll('tr')` loop of `status_list`: entries of
the 5-cell rows in table order, propagating the first row error. -/
def parseRows : List (List Cell) → Except PyError (List OutletEntry)
  | [] => .ok []
  | r :: rs =>
    match parseRow r with
    | .error e => .error e
    | .ok o =>
      match parseRows rs with
      | .error e => .error e
      | .ok rest =>
        match o with
        | none => .ok rest
        | some entry => .ok (entry :: rest)

/-- What the `geturl('index.htm')` call inside `status_list` yields: a
falsy result (`None` content) or a page. -/
inductive FetchResult
  | fail
  | page (p : Page)
deriving DecidableEq

/-- Model of `PowerSwitch.status_list` as a function of the detection flag and the
fetched page: `None` when not detected, when the fetch fails, or when both
table-location heuristics fail (`IndexError` caught); otherwise the parsed
rows of the located table. -/
def status_list (detected : Bool) (fetch : FetchResult) :
    Except PyError (Option (List OutletEntry)) :=
  if !detected then .ok none
  else
    match fetch with
    | .fail => .ok none
    | .page .noTable => .ok none
    | .page (.adminTable rows) => (parseRows rows).map some
    | .page (.userTable rows) => (parseRows rows).map some

/-- An admin-view table with a single data row (outlet `1`, name `A`,
state `on`) plus two filler cells: a well-formed page whose snapshot has
fewer than 8 outlets. -/
def shortTable : List (List Cell) :=
  [[⟨some ("1"), none⟩, ⟨some ("A"), none⟩, ⟨some ("x"), some ("on")⟩, ⟨none, none⟩, ⟨none, none⟩]]

/-! ## The stateful client model

`DState` bundles the mutable state of a `PowerSwitch` object with the
device it talks to.  Each `geturl` call is abstracted to its result:
`fetchOk` tells whether a status-page fetch succeeds, in which case the
page parses to `snapshot`; `effective` tells whether an `outlet?N=ON|OFF`
command actually changes the device.  `fetches` and `commands` count the
`geturl` calls made for status pages and outlet commands respectively;
`lenCache` is the `PowerSwitch.__len` cache. -/

structure DState where
  detected : Bool
  fetchOk : Bool
  effective : Bool
  snapshot : List OutletEntry
  lenCache : Nat
  fetches : Nat
  commands : Nat
deriving DecidableEq

/-- An outlet reference: a Python `int` or `str`. -/
inductive OutletRef
  | int (n : Int)
  | str (s : String)
deriving DecidableEq

/-- Python list indexing `l[i]`: negative indices count from the end,
out-of-range indexing raises `IndexError` (`none`). -/
def pyGet {α : Type} (l : List α) (i : Int) : Option α :=
  if 0 ≤ i then l.get? i.toNat
  else if 0 ≤ i + l.length then l.get? (i + l.length).toNat else none

/-- Model of `PowerSwitch.status_list` in the state model (lines 561-597): one
status fetch; on success the page parses to `s.snapshot` and the `__len`
cache is set if still 0. -/
def statusListS (s : DState) : Option (List OutletEntry) × DState :=
  if !s.detected then (none, s)
  else
    let s := { s with fetches := s.fetches + 1 }
    if !s.fetchOk then (none, s)
    else
      let s := if s.lenCache = 0 then { s with lenCache := s.snapshot.length } else s
      (some s.snapshot, s)

/-- Model of `PowerSwitch.__len__` (lines 304-313): 0 when not detected; otherwise
the cached length, computing it from `status_list()` first if the cache is
0 (`len(None)` is a `TypeError` when that fetch fails). -/
def lenS (s : DState) : Except PyError (Nat × DState) :=
  if !s.detected then .ok (0, s)
  else if s.lenCache ≠ 0 then .ok (s.lenCache, s)
  else
    match statusListS s with
    | (none, _) => .error .typeError
    | (some outlets, s') => .ok (outlets.length, { s' with lenCache := outlets.length })

/-- The name scan of `determine_outlet`: first plug whose truthy name
matches the reference after trimming (case-sensitive). -/
def findPlug (outlet : String) : List OutletEntry → Option Int
  | [] => none
  | p :: ps =>
    match p.name with
    | some nm =>
      if nm ≠ "" ∧ pyStrip nm = pyStrip outlet then some p.number else findPlug outlet ps
    | none => findPlug outlet ps

/-- The range check of `determine_outlet` (lines 489-492): Python's
short-circuit `or` evaluates `self.__len__()` only when `outlet_int > 0`. -/
def rangeCheckS (s : DState) (n : Int) : Except PyError (Int × DState) :=
  if n ≤ 0 then .error (.dliPower ("Outlet number " ++ toString n ++ " out of range"))
  else
    match lenS s with
    | .error e => .error e
    | .ok (len, s) =>
      if n > (len : Int) then
        .error (.dliPower ("Outlet number " ++ toString n ++ " out of range"))
      else .ok (n, s)

/-- Model of `PowerSwitch.determine_outlet` (lines 477-494): fetch the snapshot;
for a truthy string reference against a truthy snapshot, scan names first;
otherwise convert to `int` (raising the "unknown" condition on
`ValueError`) and range-check. -/
def determine_outletS (s : DState) (outlet : OutletRef) : Except PyError (Int × DState) :=
  let (outlets, s) := statusListS s
  let scanned : Option Int :=
    match outlet, outlets with
    | .str nm, some plugs => if nm ≠ "" ∧ plugs ≠ [] then findPlug nm plugs else none
    | _, _ => none
  match scanned with
  | some n => .ok (n, s)
  | none =>
    match outlet with
    | .int n => rangeCheckS s n
    | .str nm =>
      match pyIntOfString nm with
      | none => .error (.dliPower ("Outlet name '" ++ nm ++ "' unknown"))
      | some n => rangeCheckS s n

/-- Model of `PowerSwitch.outlet_status` (lines 609-619): `'Unknown'` when not
detected or the snapshot fetch failed; otherwise the state at Python index
`outlet - 1` (no bounds check; a string reference makes `outlet - 1` a
`TypeError`). -/
def outlet_statusS (s : DState) (outlet : OutletRef) : Except PyError (String × DState) :=
  if s.detected then
    let (states, s) := statusListS s
    match states with
    | none => .ok ("Unknown", s)
    | some outlets =>
      match outlet with
      | .str _ => .error .typeError
      | .int n =>
        match pyGet outlets (n - 1) with
        | none => .error .indexError
        | some st => .ok (st.state, s)
  else .ok ("Unknown", s)

/-- The scan of `get_outlet_name`: the name of the first plug whose number
equals the resolved outlet. -/
def findName (n : Int) : List OutletEntry → Option (Option String)
  | [] => none
  | p :: ps => if p.number = n then some p.name else findName n ps

/-- Model of `PowerSwitch.get_outlet_name` (lines 496-504): resolve the reference,
re-fetch the snapshot, scan for the plug number; `'Unknown'` otherwise. -/
def get_outlet_nameS (s : DState) (outlet : OutletRef) :
    Except PyError (Option String × DState) :=
  match determine_outletS s outlet with
  | .error e => .error e
  | .ok (n, s) =>
    let (outlets, s) := statusListS s
    match outlets with
    | some plugs =>
      if plugs ≠ [] ∧ n ≠ 0 then
        match findName n plugs with
        | some nm => .ok (nm, s)
        | none => .ok (some ("Unknown"), s)
      else .ok (some ("Unknown"), s)
    | none => .ok (some ("Unknown"), s)

/-- Set the state of outlet `n` in the device snapshot. -/
def setEntryState (plugs : List OutletEntry) (n : Int) (st : String) : List OutletEntry :=
  plugs.map fun p => if p.number = n then { p with state := st } else p

/-- A `geturl('outlet?<n>=<st>')` command request: counted in `commands`;
when the device is `effective`, the outlet's state on the device changes. -/
def commandS (s : DState) (n : Int) (st : String) : DState :=
  let s := { s with commands := s.commands + 1 }
  if s.effective then { s with snapshot := setEntryState s.snapshot n st } else s

/-- Model of `PowerSwitch.off` (lines 514-525).  The already-OFF branch logs an
f-string that calls `get_outlet_name`; the command branch resolves the
outlet, issues the command request, logs (calling `get_outlet_name`) and
re-checks the state. -/
def offS (s : DState) (outlet : OutletRef) : Except PyError (Bool × DState) :=
  match outlet_statusS s outlet with
  | .error e => .error e
  | .ok (st, s) =>
    if st = "OFF" then
      match get_outlet_nameS s outlet with
      | .error e => .error e
      | .ok (_, s) => .ok (true, s)
    else
      match determine_outletS s outlet with
      | .error e => .error e
      | .ok (n, s) =>
        let s := commandS s n ("OFF")
        match get_outlet_nameS s outlet with
        | .error e => .error e
        | .ok (_, s) =>
          match outlet_statusS s outlet with
          | .error e => .error e
          | .ok (st2, s) => .ok (st2 ≠ "OFF", s)

/-- Model of `PowerSwitch.on` (lines 527-538), symmetric to `off`. -/
def onS (s : DState) (outlet : OutletRef) : Except PyError (Bool × DState) :=
  match outlet_statusS s outlet with
  | .error e => .error e
  | .ok (st, s) =>
    if st = "ON" then
      match get_outlet_nameS s outlet with
      | .error e => .error e
      | .ok (_, s) => .ok (true, s)
    else
      match determine_outletS s outlet with
      | .error e => .error e
      | .ok (n, s) =>
        let s := commandS s n ("ON")
        match get_outlet_nameS s outlet with
        | .error e => .error e
        | .ok (_, s) =>
          match outlet_statusS s outlet with
          | .error e => .error e
          | .ok (st2, s) => .ok (st2 ≠ "ON", s)

/-- Model of `PowerSwitch.is_off` (lines 543-544). -/
def is_offS (s : DState) (outlet : OutletRef) : Except PyError (Bool × DState) :=
  match outlet_statusS s outlet with
  | .error e => .error e
  | .ok (st, s) => .ok (st = "OFF", s)

/-- Model of `PowerSwitch.cycle` (lines 546-559): turn on if off, otherwise off,
wait, on; `return False` unconditionally. -/
def cycleS (s : DState) (outlet : OutletRef) : Except PyError (Bool × DState) :=
  match is_offS s outlet with
  | .error e => .error e
  | .ok (b, s) =>
    if b then
      match onS s outlet with
      | .error e => .error e
      | .ok (_, s) => .ok (false, s)
    else
      match offS s outlet with
      | .error e => .error e
      | .ok (_, s) =>
        match onS s outlet with
        | .error e => .error e
        | .ok (_, s) => .ok (false, s)

/-! ## The parallel dispatcher: `PowerSwitch.command_on_outlets` (lines 644-675) -/

/-- A Python value returned by a per-outlet command. -/
inductive PyVal
  | bool (b : Bool)
  | str (s : String)
deriving DecidableEq

/-- Python truthiness of such a value (`if value:`). -/
def pyTruthy : PyVal → Bool
  | .bool b => b
  | .str s => s ≠ ""

/-- Result of `command_on_outlets`: Python `None` (not detected), a bare
value, or a list. -/
inductive CmdResult
  | none
  | val (v : PyVal)
  | list (l : List PyVal)
deriving DecidableEq

/-- Model of `PowerSwitch.command_on_outlets`.  The command is abstracted to the
value `getattr(self, command)(outlet)` returns for each outlet
(`pool.imap` yields results in input order).  A single-outlet list returns
the bool unwrapped but wraps any other value in a list; an empty list makes
`multiprocessing.Pool(processes=0)` raise `ValueError`; for several
outlets, a boolean first result triggers the any-truthy aggregation, which
otherwise returns `result[0]`. -/
def command_on_outlets (detected : Bool) (cmd : Nat → PyVal) (outlets : List Nat) :
    Except PyError CmdResult :=
  if !detected then .ok .none
  else if outlets.length = 1 then
    match cmd (outlets.headD 0) with
    | .bool b => .ok (.val (.bool b))
    | r => .ok (.list [r])
  else if outlets.length = 0 then .error .valueError
  else
    match outlets.map cmd with
    | [] => .error .indexError
    | .bool b :: rest =>
      .ok (.val (.bool (if (PyVal.bool b :: rest).any pyTruthy then true else b)))
    | r :: rest => .ok (.list (r :: rest))

/-! ## Construction: `PowerSwitch.__init__` (lines 254-302) -/

/-- The configuration dictionary: `network` is `conf['network']` (absent
key ⇒ `KeyError`), abstracted to the hostname `NetworkedDevice` derives
from it; the other fields are the optional keys `__init__` reads. -/
structure PSConf where
  network : Option String
  retries : Option Nat
  username : Option String
  password : Option String
  timeout : Option Nat
  cycle_time : Option Nat
  outlets : Option (List (String × String))
deriving DecidableEq

/-- The fields `__init__` sets on the object. -/
structure PSInit where
  name : String
  retries : Nat
  userid : String
  password : String
  timeout : Nat
  cycle_time : Nat
  num_outlets : Nat
  outlet_names : List (String × String)
  detected : Bool
deriving DecidableEq

/-- Outcome of the `self.login()` call during construction: it raises (any
exception — swallowed by the bare `except:` on line 296) or completes,
possibly setting `_detected`. -/
inductive LoginOutcome
  | raises
  | completes (detected : Bool)
deriving DecidableEq

/-- Assoc lookup in the `outlets` config sub-dictionary. -/
def lookupStr (l : List (String × String)) (k : String) : Option String :=
  (l.find? (fun p => p.1 == k)).map (·.2)

/-- The `outlet_names` loop of `__init__` (lines 279-285) for outlets
`1..8`. -/
def initOutletNames (outlets : Option (List (String × String))) : List (String × String) :=
  (List.range 8).map fun i =>
    let key := toString (i + 1)
    match outlets with
    | some outs => (key, (lookupStr outs key).getD ("Outlet " ++ key))
    | none => (key, "Outlet " ++ key)

/-- Model of `PowerSwitch.__init__`.  Here `conf = none` is Python `None` (the parameter
default): subscripting it raises `TypeError`; a conf without `'network'`
raises `KeyError`.  `NetworkedDevice.__init__` is modelled from the spec:
`Construct(deviceConfig)` records the endpoint (module `common.networking`
is not part of this repository's sources) and endpoint setup itself does
not fail.  `login` is the outcome of the `self.login()` call;
`uploadResult` abstracts the name-upload loop (lines 299-302), which runs
only when the switch was detected and `upload_outlet_names` is set. -/
def psInit (conf : Option PSConf) (login : LoginOutcome)
    (upload_outlet_names : Bool) (uploadResult : Except PyError Unit) :
    Except PyError PSInit :=
  match conf with
  | none => .error .typeError
  | some c =>
    match c.network with
    | none => .error (.keyError ("network"))
    | some host =>
      let detected := match login with | .raises => false | .completes d => d
      let st : PSInit :=
        { name := host
          retries := c.retries.getD 3
          userid := c.username.getD ("admin")
          password := c.password.getD ("1234")
          timeout := c.timeout.getD 2
          cycle_time := c.cycle_time.getD 3
          num_outlets := 8
          outlet_names := initOutletNames c.outlets
          detected := detected }
      if detected ∧ upload_outlet_names then
        match uploadResult with
        | .error e => .error e
        | .ok _ => .ok st
      else .ok st

/-! ## Concrete example states and helper predicates -/

/-- An 8-outlet snapshot with outlet 3 OFF and the others ON. -/
def snapshot8 : List OutletEntry :=
  (List.range 8).map fun i =>
    ⟨(i : Int) + 1, some ("Plug" ++ toString (i + 1)), if i + 1 = 3 then ("OFF") else ("ON")⟩

/-- A detected, reachable switch showing `snapshot8`, with fresh counters. -/
def s4 : DState :=
  { detected := true, fetchOk := true, effective := true, snapshot := snapshot8
    lenCache := 0, fetches := 0, commands := 0 }

/-- A configuration dictionary with no keys at all. -/
def confNoNetwork : PSConf := ⟨none, none, none, none, none, none, none⟩

/-- A constructed but unreachable switch: `detected = false`, fetches
failing, fresh counters — the state `__init__` leaves behind after a
swallowed login failure. -/
def sUndet : DState :=
  { detected := false, fetchOk := false, effective := false, snapshot := []
    lenCache := 0, fetches := 0, commands := 0 }

/-- The state step performed by `n` successful status fetches on a state
whose `__len` cache is 0 or already correct: `n` more fetches, cache set to
the snapshot length. -/
def fetchN (s : DState) (n : Nat) : DState :=
  { s with fetches := s.fetches + n, lenCache := s.snapshot.length }

/-- Readiness of a state for successful status fetching: detected, fetches
succeed, and the `__len` cache is unset or already correct. -/
def ready (s : DState) : Prop :=
  s.detected = true ∧ s.fetchOk = true ∧
    (s.lenCache = 0 ∨ s.lenCache = s.snapshot.length)

/-- Whether an entry's name is truthy and matches the reference after
trimming, as in `determine_outlet`'s scan. -/
def nameMatchesB (nm : String) (e : OutletEntry) : Bool :=
  match e.name with
  | some x => decide (x ≠ "" ∧ pyStrip x = pyStrip nm)
  | none => false

/-! ## Theorems -/

set_option maxRecDepth 100000

/-- C8: the login digest is the MD5 hex digest of the concatenation
challenge ++ username ++ password ++ challenge; for challenge "abc123",
username "admin", password "4321" the hashed input is exactly
"abc123admin4321abc123", and the digest equals the MD5 reference value of
that string (computed independently). -/
theorem C8_login_digest :
    form_response ("abc123") "admin" "4321" = "abc123admin4321abc123" ∧
    login_digest ("abc123") "admin" "4321" = md5hex ("abc123admin4321abc123") ∧
    md5hex ("abc123admin4321abc123") = "101089125696323790cc7cf0c82e4607" := by
  refine ⟨rfl, rfl, ?_⟩
  decide

/-- C3 (code bug): when every one of the configured attempts fails with a
connection-level exception, `geturl` does not return the documented `None`:
`request` is still `None` after the loop, and the
`logger.debug('Response code: %s', request.status_code)` line raises an
unhandled `AttributeError`. -/
theorem C3_all_exn_raises :
    geturl traceAllExn 3 = (.error .attributeError, 3) := by decide

/-- C1 counterexample: the first response has status 404 and, contrary to
the claim, `geturl` retries it — a second request is issued — and the call
returns the second response's content instead of surfacing a failure after
the non-200 response. -/
theorem C1_counterexample :
    traceNon200 0 = .resp 404 ("err") ∧
    geturl traceNon200 3 = (.ok (some ("ok")), 2) := by decide

/-- C6 counterexample: a well-formed admin-view table with a single data
row parses to a 1-outlet snapshot, and `status_list` returns it as a valid
snapshot instead of treating the count ≠ 8 as a parse failure. -/
theorem C6_counterexample :
    status_list true (.page (.adminTable shortTable)) =
      .ok (some [⟨1, some ("A"), "ON"⟩]) ∧
    [(⟨1, some ("A"), "ON"⟩ : OutletEntry)].length ≠ 8 := by decide

/-- C7 counterexample: on a single-outlet list with a command returning the
string "X", `command_on_outlets` wraps the result in a one-element list (as
its own docstring says) instead of returning the raw result unwrapped. -/
theorem C7_counterexample :
    command_on_outlets true (fun _ => .str ("X")) [1] = .ok (.list [.str ("X")]) ∧
    CmdResult.list [.str ("X")] ≠ .val (.str ("X")) := by decide

/-- C2 counterexample: a configuration dictionary without the 'network'
key makes `__init__` raise `KeyError` at `self.conf['network']` before
login is even attempted; and on a constructed-but-undetected switch the
direct `off` command is not a no-op returning a failure indicator — it
raises `DLIPowerException`, since `determine_outlet` range-checks against
`__len__()`, which is 0 when undetected. -/
theorem C2_counterexample :
    psInit (some confNoNetwork) (.completes false) true (.ok ()) =
      .error (.keyError ("network")) ∧
    offS sUndet (.int 3) =
      .error (.dliPower ("Outlet number 3 out of range")) := by decide

/-- C4 counterexample: on a detected switch whose outlet 3 is already OFF,
`off(3)` returns the already-set `True` — but the call is not
transport-silent: it issues three status-fetch requests (the state check
plus the name lookups in the log f-string), so the number of transport
requests made does change. -/
theorem C4_counterexample :
    offS s4 (.int 3) = .ok (true, { s4 with lenCache := 8, fetches := 3 }) ∧
    ({ s4 with lenCache := 8, fetches := 3 } : DState).fetches ≠ s4.fetches := by decide

/-- Lemma: on an undetected switch the direct outlet commands are not
no-ops: `outlet_status` returns 'Unknown', so `on`/`off` fall through to
`determine_outlet`, whose range check against `__len__() = 0` raises
`DLIPowerException` for every integer reference, and `cycle` propagates
it. -/
theorem undetected_commands_raise (s : DState) (hdet : s.detected = false) (k : Int) :
    offS s (.int k) =
      .error (.dliPower ("Outlet number " ++ toString k ++ " out of range")) ∧
    onS s (.int k) =
      .error (.dliPower ("Outlet number " ++ toString k ++ " out of range")) ∧
    cycleS s (.int k) =
      .error (.dliPower ("Outlet number " ++ toString k ++ " out of range")) := by
  have hos : ∀ r, outlet_statusS s r = .ok (("Unknown"), s) := by
    intro r
    simp [outlet_statusS, hdet]
  have hsl : statusListS s = (none, s) := by
    simp [statusListS, hdet]
  have hlen : lenS s = .ok (0, s) := by
    simp [lenS, hdet]
  have hdo : determine_outletS s (.int k) =
      .error (.dliPower ("Outlet number " ++ toString k ++ " out of range")) := by
    by_cases hk : k ≤ 0
    · simp [determine_outletS, hsl, rangeCheckS, hk]
    · simp [determine_outletS, hsl, rangeCheckS, hk, hlen, show (0 : Int) < k by omega]
  have hoff : offS s (.int k) =
      .error (.dliPower ("Outlet number " ++ toString k ++ " out of range")) := by
    simp [offS, hos, hdo]
  have hon : onS s (.int k) =
      .error (.dliPower ("Outlet number " ++ toString k ++ " out of range")) := by
    simp [onS, hos, hdo]
  refine ⟨hoff, hon, ?_⟩
  simp [cycleS, is_offS, hos, hoff]

/-- C2 amended: for every configuration dictionary that has the required
'network' key, construction of an unreachable switch never raises: a
`login()` that raises, or completes without detecting the switch, is
swallowed, yielding a valid object with `detected = false`.  On that
object the parallel dispatcher returns Python `None` without issuing any
request and status queries degrade to 'Unknown' — but the direct
`on`/`off`/`cycle` commands are not no-ops returning a failure indicator:
they raise `DLIPowerException`, because `determine_outlet` range-checks
against `__len__()`, which is 0 when undetected. -/
theorem C2_amended (c : PSConf) (host : String) (login : LoginOutcome)
    (upload : Bool) (uploadResult : Except PyError Unit)
    (hn : c.network = some host)
    (hl : login = .raises ∨ login = .completes false) :
    (∃ st, psInit (some c) login upload uploadResult = .ok st ∧ st.detected = false) ∧
    (∀ cmd outlets, command_on_outlets false cmd outlets = .ok .none) ∧
    (∀ s : DState, s.detected = false →
      (∀ r, outlet_statusS s r = .ok (("Unknown"), s)) ∧
      ∀ k : Int,
        offS s (.int k) =
          .error (.dliPower ("Outlet number " ++ toString k ++ " out of range")) ∧
        onS s (.int k) =
          .error (.dliPower ("Outlet number " ++ toString k ++ " out of range")) ∧
        cycleS s (.int k) =
          .error (.dliPower ("Outlet number " ++ toString k ++ " out of range"))) := by
  refine ⟨?_, ?_, ?_⟩
  · refine ⟨{ name := host
              retries := c.retries.getD 3
              userid := c.username.getD ("admin")
              password := c.password.getD ("1234")
              timeout := c.timeout.getD 2
              cycle_time := c.cycle_time.getD 3
              num_outlets := 8
              outlet_names := initOutletNames c.outlets
              detected := false }, ?_, rfl⟩
    obtain rfl | rfl := hl <;> simp [psInit, hn]
  · intro cmd outlets
    rfl
  · intro s hdet
    exact ⟨fun r => by simp [outlet_statusS, hdet],
      fun k => undetected_commands_raise s hdet k⟩

/-- Witness for `C2_amended`: a concrete conf with only the 'network' key
and a raising login yields a valid undetected object, on which the direct
`off(3)` raises the out-of-range `DLIPowerException`. -/
theorem C2_amended_witness :
    (∃ st, psInit (some { confNoNetwork with network := some ("h") }) .raises true (.ok ()) =
        .ok st ∧ st.detected = false) ∧
    offS sUndet (.int 3) = .error (.dliPower ("Outlet number 3 out of range")) := by
  have h := C2_amended { confNoNetwork with network := some ("h") } ("h") .raises true (.ok ())
    rfl (Or.inl rfl)
  refine ⟨h.1, ?_⟩
  exact (((h.2.2 sUndet rfl).2 3).1).trans (by decide)

/-- C10: `cycle` returns the legacy `False` whenever it returns at all:
for every device state and outlet reference, if `cycleS` completes without
an exception, its boolean result is `false` — independent of whether the
off request or either on request succeeded or failed. -/
theorem C10_cycle_false (s : DState) (outlet : OutletRef) (r : Bool) (s' : DState)
    (h : cycleS s outlet = .ok (r, s')) : r = false := by
  unfold cycleS at h
  split at h
  · exact Except.noConfusion h
  · split at h
    · split at h
      · exact Except.noConfusion h
      · simp only [Except.ok.injEq, Prod.mk.injEq] at h
        exact h.1.symm
    · split at h
      · exact Except.noConfusion h
      · split at h
        · exact Except.noConfusion h
        · simp only [Except.ok.injEq, Prod.mk.injEq] at h
          exact h.1.symm

/-- Witness for `C10_cycle_false`: a concrete power cycle on a detected,
effective switch completes and returns `false`. -/
theorem C10_cycle_false_witness :
    cycleS s4 (.int 1) = .ok (false, { s4 with lenCache := 8, fetches := 11, commands := 2 }) ∧
    (false : Bool) = false :=
  ⟨by decide,
   C10_cycle_false s4 (.int 1) false { s4 with lenCache := 8, fetches := 11, commands := 2 }
     (by decide)⟩

/-- If none of the next `fuel` attempts yields a 200 response, the loop
runs all of them: no result is set and one request is issued per attempt. -/
theorem geturlLoop_no200 (attempt : Nat → ReqOutcome) :
    ∀ fuel i req issued, (∀ j, j < fuel → status200 (attempt (i + j)) = false) →
      (geturlLoop attempt i fuel req issued).result = none ∧
      (geturlLoop attempt i fuel req issued).issued = issued + fuel := by
  intro fuel
  induction fuel with
  | zero => intro i req issued _; exact ⟨rfl, rfl⟩
  | succ n ih =>
    intro i req issued h
    have h0 : status200 (attempt i) = false := by simpa using h 0 (Nat.succ_pos n)
    have hstep : ∀ j, j < n → status200 (attempt (i + 1 + j)) = false := by
      intro j hj
      have hh := h (j + 1) (by omega)
      rwa [show i + (j + 1) = i + 1 + j by omega] at hh
    cases hA : attempt i with
    | exn =>
      obtain ⟨r1, r2⟩ := ih (i + 1) req (issued + 1) hstep
      simp only [geturlLoop, hA]
      exact ⟨r1, by rw [r2]; omega⟩
    | resp st c =>
      have hne : st ≠ 200 := by
        intro hst
        rw [hA, hst] at h0
        exact Bool.noConfusion h0
      obtain ⟨r1, r2⟩ := ih (i + 1) (some (st, c)) (issued + 1) hstep
      simp only [geturlLoop, hA, if_neg hne]
      exact ⟨r1, by rw [r2]; omega⟩

/-- If the `k`-th attempt is the first yielding a 200 response and is
within the budget, the loop stops there with its content after `k + 1`
requests. -/
theorem geturlLoop_first200 (attempt : Nat → ReqOutcome) :
    ∀ fuel i req issued k c, k < fuel → attempt (i + k) = .resp 200 c →
      (∀ j, j < k → status200 (attempt (i + j)) = false) →
      geturlLoop attempt i fuel req issued = ⟨some c, some (200, c), issued + k + 1⟩ := by
  intro fuel
  induction fuel with
  | zero => intro i req issued k c hk; exact absurd hk (by omega)
  | succ n ih =>
    intro i req issued k c hk h200 hpre
    cases k with
    | zero =>
      rw [Nat.add_zero] at h200
      simp [geturlLoop, h200]
    | succ m =>
      have hpre' : ∀ j, j < m → status200 (attempt (i + 1 + j)) = false := by
        intro j hj
        have hh := hpre (j + 1) (by omega)
        rwa [show i + (j + 1) = i + 1 + j by omega] at hh
      have h200' : attempt (i + 1 + m) = .resp 200 c := by
        rwa [show i + 1 + m = i + (m + 1) by omega]
      have h0 : status200 (attempt i) = false := by simpa using hpre 0 (Nat.succ_pos m)
      cases hA : attempt i with
      | exn =>
        simp only [geturlLoop, hA]
        rw [ih (i + 1) req (issued + 1) m c (by omega) h200' hpre']
        simp only [GeturlOut.mk.injEq, true_and]
        omega
      | resp st c' =>
        have hne : st ≠ 200 := by
          intro hst
          rw [hA, hst] at h0
          exact Bool.noConfusion h0
        simp only [geturlLoop, hA, if_neg hne]
        rw [ih (i + 1) (some (st, c')) (issued + 1) m c (by omega) h200' hpre']
        simp only [GeturlOut.mk.injEq, true_and]
        omega

/-- C1 amended: connection-level failures AND non-200 responses are both
retried: `geturl` keeps issuing requests until the first 200 response,
whose content it returns after `k + 1` requests; when no attempt yields a
200 within the retry budget it issues all `retries` requests and the call
ends in a failure — `None`, or the post-loop `AttributeError` when every
attempt raised. -/
theorem C1_amended (attempt : Nat → ReqOutcome) (retries : Nat) :
    (∀ k c, k < retries → attempt k = .resp 200 c →
      (∀ j, j < k → status200 (attempt j) = false) →
      geturl attempt retries = (.ok (some c), k + 1)) ∧
    ((∀ j, j < retries → status200 (attempt j) = false) →
      (geturl attempt retries).2 = retries ∧
      ((geturl attempt retries).1 = .ok none ∨
        (geturl attempt retries).1 = .error .attributeError)) := by
  constructor
  · intro k c hk h200 hpre
    have hloop := geturlLoop_first200 attempt retries 0 none 0 k c hk
      (by simpa using h200) (by simpa using hpre)
    simp [geturl, hloop]
  · intro h
    obtain ⟨h1, h2⟩ := geturlLoop_no200 attempt retries 0 none 0 (by simpa using h)
    cases hreq : (geturlLoop attempt 0 retries none 0).request with
    | none => simp [geturl, hreq, h1, h2]
    | some p => simp [geturl, hreq, h1, h2]

/-- Witness for `C1_amended`: a trace whose first response is a 200
returns its content after one request. -/
theorem C1_amended_witness :
    geturl (fun _ => .resp 200 ("ok")) 1 = (.ok (some ("ok")), 1) :=
  (C1_amended (fun _ => .resp 200 ("ok")) 1).1 0 ("ok") (by omega) rfl
    (fun j hj => absurd hj (by omega))

/-- A row parsed to ("skipped") has a column count other than 5. -/
theorem parseRow_ok_none {cells : List Cell} (h : parseRow cells = .ok none) :
    cells.length ≠ 5 := by
  intro hl
  simp only [parseRow, if_pos hl] at h
  split at h
  · exact Except.noConfusion h
  · split at h
    · exact Except.noConfusion h
    · split at h
      · exact Except.noConfusion h
      · simp at h

/-- A row parsed to an entry has exactly 5 columns. -/
theorem parseRow_ok_some {cells : List Cell} {e : OutletEntry}
    (h : parseRow cells = .ok (some e)) : cells.length = 5 := by
  by_contra hl
  simp only [parseRow, if_neg hl] at h
  exact Option.noConfusion (Except.ok.inj h)

/-- C6 amended: `status_list` performs no outlet-count or contiguity
validation: whenever row parsing succeeds, the parsed snapshot is returned
as a valid snapshot whatever its size — exactly one entry per 5-cell table
row, be that 8 or not. -/
theorem C6_amended (rows : List (List Cell)) (snap : List OutletEntry)
    (h : parseRows rows = .ok snap) :
    status_list true (.page (.adminTable rows)) = .ok (some snap) ∧
    snap.length = rows.countP (fun r => r.length == 5) := by
  refine ⟨by simp [status_list, h, Except.map], ?_⟩
  induction rows generalizing snap with
  | nil =>
    simp only [parseRows] at h
    cases h
    rfl
  | cons r rs ih =>
    simp only [parseRows] at h
    cases hpr : parseRow r with
    | error e => rw [hpr] at h; exact Except.noConfusion h
    | ok o =>
      rw [hpr] at h
      cases hrs : parseRows rs with
      | error e => rw [hrs] at h; exact Except.noConfusion h
      | ok rest =>
        rw [hrs] at h
        cases o with
        | none =>
          cases Except.ok.inj h
          have hrec := ih _ hrs
          have hne := parseRow_ok_none hpr
          rw [List.countP_cons]
          simp [hne, hrec]
        | some entry =>
          cases Except.ok.inj h
          have hrec := ih _ hrs
          have h5 := parseRow_ok_some hpr
          rw [List.countP_cons]
          simp [h5, hrec]

/-- Witness for `C6_amended` at the one-row admin table. -/
theorem C6_amended_witness :
    status_list true (.page (.adminTable shortTable)) = .ok (some [⟨1, some ("A"), "ON"⟩]) ∧
    ([(⟨1, some ("A"), "ON"⟩ : OutletEntry)]).length =
      shortTable.countP (fun r => r.length == 5) :=
  C6_amended shortTable [⟨1, some ("A"), "ON"⟩] (by decide)

/-- Lemma: `any` over the mapped command results is `any` of per-outlet
truthiness. -/
theorem any_map_pyTruthy (cmd : Nat → PyVal) :
    ∀ l : List Nat, (l.map cmd).any pyTruthy = l.any fun o => pyTruthy (cmd o) := by
  intro l
  induction l with
  | nil => rfl
  | cons a as ih => simp [List.any_cons, ih]

/-- On a multi-outlet list whose first command result is a boolean, the
dispatcher reaches the any-truthy aggregation. -/
theorem command_on_outlets_multi (cmd : Nat → PyVal) (o1 o2 : Nat) (rest : List Nat)
    (b : Bool) (hb : cmd o1 = .bool b) :
    command_on_outlets true cmd (o1 :: o2 :: rest) =
      .ok (.val (.bool (if (PyVal.bool b :: (o2 :: rest).map cmd).any pyTruthy then true
        else b))) := by
  unfold command_on_outlets
  rw [if_neg (by simp), if_neg (by simp), if_neg (by simp)]
  rw [List.map_cons, hb]

/-- C7 amended: `command_on_outlets` on a single-outlet list returns a
boolean result unwrapped but wraps a non-boolean result in a one-element
list (as its docstring says); on a multi-outlet list of boolean results
the aggregate is true iff any individual result is true. -/
theorem C7_amended (cmd : Nat → PyVal) :
    (∀ o b, cmd o = .bool b → command_on_outlets true cmd [o] = .ok (.val (.bool b))) ∧
    (∀ o st, cmd o = .str st → command_on_outlets true cmd [o] = .ok (.list [.str st])) ∧
    (∀ o1 o2 rest, (∀ o ∈ o1 :: o2 :: rest, ∃ b, cmd o = .bool b) →
      command_on_outlets true cmd (o1 :: o2 :: rest) =
        .ok (.val (.bool ((o1 :: o2 :: rest).any fun o => pyTruthy (cmd o))))) := by
  refine ⟨?_, ?_, ?_⟩
  · intro o b hb
    simp [command_on_outlets, hb]
  · intro o st hst
    simp [command_on_outlets, hst]
  · intro o1 o2 rest hall
    obtain ⟨b, hb⟩ := hall o1 (by simp)
    rw [command_on_outlets_multi cmd o1 o2 rest b hb]
    have hcond : ((PyVal.bool b :: (o2 :: rest).map cmd).any pyTruthy)
        = (o1 :: o2 :: rest).any fun o => pyTruthy (cmd o) := by
      rw [show PyVal.bool b :: (o2 :: rest).map cmd = (o1 :: o2 :: rest).map cmd by
        simp [hb], any_map_pyTruthy]
    rw [hcond]
    cases hany : (o1 :: o2 :: rest).any (fun o => pyTruthy (cmd o)) with
    | true => rfl
    | false =>
      have h1 : pyTruthy (cmd o1) = false := by
        simp only [List.any_cons, Bool.or_eq_false_iff] at hany
        exact hany.1
      rw [hb] at h1
      have hbf : b = false := h1
      subst hbf
      rfl

/-- Witness for `C7_amended`: outlets 1 and 3 succeed (False), outlet 2
fails (True); the aggregate is True. -/
theorem C7_amended_witness :
    command_on_outlets true (fun o => .bool (o == 2)) [1, 2, 3] = .ok (.val (.bool true)) :=
  ((C7_amended (fun o => .bool (o == 2))).2.2 1 2 [3]
    (fun o _ => ⟨o == 2, rfl⟩)).trans (by decide)

/-- On a ready state, a status fetch returns the snapshot and performs the
`fetchN · 1` state step. -/
theorem statusListS_ready (s : DState) (h : ready s) :
    statusListS s = (some s.snapshot, fetchN s 1) := by
  obtain ⟨det, fok, eff, snap, cache, fet, com⟩ := s
  obtain ⟨h1, h2, h3⟩ := h
  simp only at h1 h2 h3
  subst h1
  subst h2
  rcases h3 with h3 | h3 <;> subst h3
  · rfl
  · by_cases hz : snap.length = 0
    · have hz' : snap = [] := List.length_eq_zero.mp hz
      subst hz'
      rfl
    · have hz' : ¬ snap = [] := by
        intro hh
        subst hh
        exact hz rfl
      simp [statusListS, fetchN, hz, hz']

/-- Composing fetch steps. -/
theorem fetchN_fetchN (s : DState) (m n : Nat) : fetchN (fetchN s m) n = fetchN s (m + n) := by
  obtain ⟨det, fok, eff, snap, cache, fet, com⟩ := s
  simp [fetchN, Nat.add_assoc]

/-- Lemma: `outlet_status` on a ready state with a positive in-range index
returns that entry's state after one fetch. -/
theorem outlet_statusS_pos (s : DState) (k : Int) (e : OutletEntry)
    (hr : ready s) (hk1 : 1 ≤ k)
    (he : s.snapshot.get? (k - 1).toNat = some e) :
    outlet_statusS s (.int k) = .ok (e.state, fetchN s 1) := by
  have hst := statusListS_ready s hr
  have hpg : pyGet s.snapshot (k - 1) = some e := by
    simp only [pyGet]
    rw [if_pos (show (0 : Int) ≤ k - 1 by omega)]
    exact he
  simp [outlet_statusS, hr.1, hst, hpg]

/-- C9: `outlet_status` indexes the freshly fetched snapshot positionally
with no bounds or identity check: on a detected switch whose snapshot has
L entries, an index greater than L raises `IndexError` instead of
returning 'Unknown', and index 0 silently returns the state of the last
outlet (Python index -1). -/
theorem C9_outlet_status (s : DState)
    (hdet : s.detected = true) (hfetch : s.fetchOk = true)
    (hcache : s.lenCache = 0 ∨ s.lenCache = s.snapshot.length) :
    (∀ k : Int, (s.snapshot.length : Int) < k →
      outlet_statusS s (.int k) = .error .indexError) ∧
    (∀ e, s.snapshot.getLast? = some e →
      outlet_statusS s (.int 0) = .ok (e.state, fetchN s 1)) := by
  have hst := statusListS_ready s ⟨hdet, hfetch, hcache⟩
  constructor
  · intro k hk
    have h0 : (0 : Int) ≤ k - 1 := by omega
    have hge : s.snapshot.length ≤ (k - 1).toNat := by omega
    have hpg : pyGet s.snapshot (k - 1) = none := by
      simp only [pyGet]
      rw [if_pos h0]
      exact List.get?_eq_none.mpr hge
    simp [outlet_statusS, hdet, hst, hpg]
  · intro e he
    have hL : 1 ≤ s.snapshot.length := by
      cases hsnap : s.snapshot with
      | nil => rw [hsnap] at he; exact Option.noConfusion he
      | cons a as => simp [hsnap]
    have hpg : pyGet s.snapshot (-1) = some e := by
      simp only [pyGet]
      rw [if_neg (show ¬ (0 : Int) ≤ -1 by omega),
        if_pos (show (0 : Int) ≤ -1 + (s.snapshot.length : Int) by omega),
        show ((-1 : Int) + (s.snapshot.length : Int)).toNat = s.snapshot.length - 1 by omega,
        List.get?_eq_getElem?, ← List.getLast?_eq_getElem?]
      exact he
    simp [outlet_statusS, hdet, hst, hpg]

/-- Witness for `C9_outlet_status` on the 8-outlet snapshot: index 9
raises `IndexError` while index 0 returns outlet 8's state. -/
theorem C9_witness :
    outlet_statusS s4 (.int 9) = .error .indexError ∧
    outlet_statusS s4 (.int 0) = .ok ("ON", fetchN s4 1) := by
  have h := C9_outlet_status s4 rfl rfl (Or.inl rfl)
  exact ⟨h.1 9 (by decide), h.2 ⟨8, some ("Plug8"), "ON"⟩ (by decide)⟩

/-- Lemma: `findPlug` returns the number of the first matching entry. -/
theorem findPlug_first (nm : String) :
    ∀ (l : List OutletEntry) (i : Nat) (e : OutletEntry),
      l.get? i = some e → nameMatchesB nm e = true →
      (∀ j ej, j < i → l.get? j = some ej → nameMatchesB nm ej = false) →
      findPlug nm l = some e.number := by
  intro l
  induction l with
  | nil => intro i e hi _ _; exact absurd hi (by simp)
  | cons a as ih =>
    intro i e hi he hpre
    cases i with
    | zero =>
      have ha : a = e := by simpa using hi
      subst ha
      cases hn : a.name with
      | none =>
        rw [nameMatchesB] at he
        rw [hn] at he
        exact Bool.noConfusion he
      | some x =>
        rw [nameMatchesB] at he
        rw [hn] at he
        simp only [decide_eq_true_eq] at he
        simp only [findPlug, hn]
        rw [if_pos he]
    | succ j =>
      have h0 : nameMatchesB nm a = false := hpre 0 a (Nat.succ_pos j) rfl
      have hi' : as.get? j = some e := by simpa using hi
      have hpre' : ∀ j2 ej, j2 < j → as.get? j2 = some ej → nameMatchesB nm ej = false := by
        intro j2 ej hj hget
        exact hpre (j2 + 1) ej (by omega) (by simpa using hget)
      cases hn : a.name with
      | none =>
        simp only [findPlug, hn]
        exact ih j e hi' he hpre'
      | some x =>
        have hcond : ¬ (x ≠ "" ∧ pyStrip x = pyStrip nm) := by
          rw [nameMatchesB] at h0
          rw [hn] at h0
          simpa only [decide_eq_false_iff_not] using h0
        simp only [findPlug, hn]
        rw [if_neg hcond]
        exact ih j e hi' he hpre'

/-- Lemma: `findPlug` fails when no entry matches. -/
theorem findPlug_none (nm : String) :
    ∀ l : List OutletEntry, (∀ e ∈ l, nameMatchesB nm e = false) → findPlug nm l = none := by
  intro l
  induction l with
  | nil => intro _; rfl
  | cons a as ih =>
    intro h
    have h0 := h a (by simp)
    cases hn : a.name with
    | none =>
      simp only [findPlug, hn]
      exact ih fun e he => h e (by simp [he])
    | some x =>
      have hcond : ¬ (x ≠ "" ∧ pyStrip x = pyStrip nm) := by
        rw [nameMatchesB] at h0
        rw [hn] at h0
        simpa only [decide_eq_false_iff_not] using h0
      simp only [findPlug, hn]
      rw [if_neg hcond]
      exact ih fun e he => h e (by simp [he])

/-- Lemma: `determine_outlet` accepts a positive in-range integer reference,
returning it after the snapshot fetch. -/
theorem determine_outletS_int_ok (s : DState) (n : Int)
    (hr : ready s) (h1 : 1 ≤ n) (h2 : n ≤ (s.snapshot.length : Int)) :
    determine_outletS s (.int n) = .ok (n, fetchN s 1) := by
  have hst := statusListS_ready s hr
  have hnz : ¬ (fetchN s 1).lenCache = 0 := by
    show ¬ s.snapshot.length = 0
    omega
  have hlen : lenS (fetchN s 1) = .ok (s.snapshot.length, fetchN s 1) := by
    simp [lenS, show (fetchN s 1).detected = true from hr.1, hnz]
    rfl
  simp [determine_outletS, hst, rangeCheckS, hlen, show ¬ n ≤ 0 by omega,
    show ¬ (s.snapshot.length : Int) < n by omega]

/-- C5: `determine_outlet` resolves a string reference to the number of the
first snapshot entry whose stripped name matches it case-sensitively,
validates an integer reference against `1 ≤ n ≤ outlet count`, and raises
the explicit `DLIPowerException` — out-of-range or unknown-name — to the
caller instead of swallowing it. -/
theorem C5_determine_outlet (s : DState)
    (hdet : s.detected = true) (hfetch : s.fetchOk = true)
    (hcache : s.lenCache = 0 ∨ s.lenCache = s.snapshot.length) :
    (∀ nm i e, nm ≠ "" → s.snapshot.get? i = some e → nameMatchesB nm e = true →
      (∀ j ej, j < i → s.snapshot.get? j = some ej → nameMatchesB nm ej = false) →
      determine_outletS s (.str nm) = .ok (e.number, fetchN s 1)) ∧
    (∀ n : Int, 1 ≤ n → n ≤ (s.snapshot.length : Int) →
      determine_outletS s (.int n) = .ok (n, fetchN s 1)) ∧
    (∀ n : Int, n ≤ 0 ∨ (s.snapshot.length : Int) < n →
      determine_outletS s (.int n) =
        .error (.dliPower ("Outlet number " ++ toString n ++ " out of range"))) ∧
    (∀ nm, (∀ e ∈ s.snapshot, nameMatchesB nm e = false) → pyIntOfString nm = none →
      determine_outletS s (.str nm) =
        .error (.dliPower ("Outlet name '" ++ nm ++ "' unknown"))) := by
  have hr : ready s := ⟨hdet, hfetch, hcache⟩
  have hst := statusListS_ready s hr
  refine ⟨?_, fun n h1 h2 => determine_outletS_int_ok s n hr h1 h2, ?_, ?_⟩
  · intro nm i e hnm hi he hpre
    have hplug := findPlug_first nm s.snapshot i e hi he hpre
    have hne : ¬ s.snapshot = [] := by
      intro hnil
      rw [hnil] at hi
      exact Option.noConfusion hi
    simp [determine_outletS, hst, hnm, hne, hplug]
  · intro n hn
    by_cases hle : n ≤ 0
    · simp [determine_outletS, hst, rangeCheckS, hle]
    · have hgt : (s.snapshot.length : Int) < n := by
        rcases hn with h | h
        · omega
        · exact h
      by_cases hz : s.snapshot.length = 0
      · obtain ⟨det, fok, eff, snap, cache, fet, com⟩ := s
        simp only at hdet hfetch hz hgt
        subst hdet
        subst hfetch
        have hnil : snap = [] := List.length_eq_zero.mp hz
        subst hnil
        have hc0 : cache = 0 := by rcases hcache with h | h <;> simpa using h
        subst hc0
        simp only [List.length_nil, Nat.cast_zero] at hgt
        simp [determine_outletS, rangeCheckS, lenS, statusListS, fetchN, hle, hgt]
      · have hnz : ¬ (fetchN s 1).lenCache = 0 := hz
        have hlen : lenS (fetchN s 1) = .ok (s.snapshot.length, fetchN s 1) := by
          simp [lenS, show (fetchN s 1).detected = true from hdet, hnz]
          rfl
        simp [determine_outletS, hst, rangeCheckS, hlen, hle,
          show (s.snapshot.length : Int) < n from hgt]
  · intro nm hall hint
    have hplug := findPlug_none nm s.snapshot hall
    simp [determine_outletS, hst, hplug, hint]

/-- Witness for `C5_determine_outlet`: the integer reference 3 resolves on
the 8-outlet snapshot. -/
theorem C5_witness :
    determine_outletS s4 (.int 3) = .ok (3, fetchN s4 1) :=
  (C5_determine_outlet s4 rfl rfl (Or.inl rfl)).2.1 3 (by decide) (by decide)

/-- Lemma: `get_outlet_name` on a ready state with a positive in-range integer
reference completes with exactly two status fetches. -/
theorem get_outlet_nameS_int (s : DState) (k : Int)
    (hr : ready s) (h1 : 1 ≤ k) (h2 : k ≤ (s.snapshot.length : Int)) :
    ∃ nm, get_outlet_nameS s (.int k) = .ok (nm, fetchN s 2) := by
  have hres := determine_outletS_int_ok s k hr h1 h2
  have hr1 : ready (fetchN s 1) := ⟨hr.1, hr.2.1, Or.inr rfl⟩
  have hst2 := statusListS_ready (fetchN s 1) hr1
  have hne : ¬ s.snapshot = [] := by
    intro hnil
    rw [hnil] at h2
    simp at h2
    omega
  have hk0 : ¬ k = 0 := by omega
  have hsnap : (fetchN s 1).snapshot = s.snapshot := rfl
  cases hfn : findName k s.snapshot with
  | some nm =>
    exact ⟨nm, by simp [get_outlet_nameS, hres, hst2, fetchN_fetchN, hsnap, hne, hk0, hfn]⟩
  | none =>
    exact ⟨some ("Unknown"), by
      simp [get_outlet_nameS, hres, hst2, fetchN_fetchN, hsnap, hne, hk0, hfn]⟩

/-- C4 amended: calling `on`/`off` when the outlet is already in the
desired state returns the legacy `True` without issuing any command
request (`outlet?N=ON|OFF`) — but the call is not request-free: it issues
exactly three status-fetch requests (the state check, plus the resolution
fetch and the snapshot scan of the outlet-name lookup inside the log
f-string). -/
theorem C4_amended (s : DState) (k : Int) (e : OutletEntry)
    (hdet : s.detected = true) (hfetch : s.fetchOk = true)
    (hcache : s.lenCache = 0 ∨ s.lenCache = s.snapshot.length)
    (hk1 : 1 ≤ k) (hkL : k ≤ (s.snapshot.length : Int))
    (he : s.snapshot.get? (k - 1).toNat = some e) :
    (e.state = "OFF" → offS s (.int k) = .ok (true, fetchN s 3)) ∧
    (e.state = "ON" → onS s (.int k) = .ok (true, fetchN s 3)) ∧
    (fetchN s 3).commands = s.commands ∧ (fetchN s 3).fetches = s.fetches + 3 := by
  have hr : ready s := ⟨hdet, hfetch, hcache⟩
  have hos := outlet_statusS_pos s k e hr hk1 he
  have hr1 : ready (fetchN s 1) := ⟨hdet, hfetch, Or.inr rfl⟩
  obtain ⟨nm, hname⟩ := get_outlet_nameS_int (fetchN s 1) k hr1 hk1 hkL
  have hname3 : get_outlet_nameS (fetchN s 1) (.int k) = .ok (nm, fetchN s 3) := by
    rw [hname, fetchN_fetchN]
  refine ⟨?_, ?_, rfl, rfl⟩
  · intro hOFF
    simp [offS, hos, hOFF, hname3]
  · intro hON
    simp [onS, hos, hON, hname3]

/-- Witness for `C4_amended` at outlet 3 (already OFF) of the concrete
switch. -/
theorem C4_amended_witness :
    offS s4 (.int 3) = .ok (true, fetchN s4 3) :=
  (C4_amended s4 3 ⟨3, some ("Plug3"), "OFF"⟩ rfl rfl (Or.inl rfl)
    (by decide) (by decide) (by decide)).1 rfl

end DLI
